import Mathlib

/-!
Verification development for the BOL batch-extraction program
(`batch_extract.py`, `llm_extract.py`).

The Python functions are shallowly embedded as executable Lean
definitions.  Python `float` values are modelled as rationals (`ℚ`);
machine text as `String`/`List Char` (the program's inputs are ASCII
OCR text, so the ASCII reading of `\w`, `\s`, `[A-Z]` is used).
The five regular expressions of `batch_extract.py` are embedded as
dedicated backtracking matchers following Python `re` semantics
(leftmost match, ordered alternation, greedy bounded repetition with
backtracking, word boundaries).
-/

/-- ASCII model of Python's regex word character `\w` (letters, digits, underscore). -/
def isWordChar (c : Char) : Bool := c.isAlphanum || c = '_'

/-- ASCII model of Python's regex whitespace class `\s`. -/
def isSpaceChar (c : Char) : Bool :=
  c = ' ' || c = '\t' || c = '\n' || c = '\r' || c = '\x0b' || c = '\x0c'

/-- Word-character test on an optional character; `none` (text edge) is a non-word position. -/
def wordOpt : Option Char → Bool
  | none => false
  | some c => isWordChar c

/-- Python's `\b`: a word boundary lies between two positions iff exactly one side
is a word character. -/
def isBoundary (prev next : Option Char) : Bool := wordOpt prev != wordOpt next

/-- Word boundary test right after a just-matched word character: the next
character must be absent or a non-word character. -/
def endBoundaryOk (l : List Char) : Bool :=
  match l.head? with
  | none => true
  | some c => !(isWordChar c)

/-- Case-insensitive literal match (pattern given in lowercase), as done by `re.I`
on ASCII literals.  Returns the rest of the input after the literal. -/
def matchCI : List Char → List Char → Option (List Char)
  | [], rest => some rest
  | _ :: _, [] => none
  | p :: ps, c :: cs => if c.toLower = p then matchCI ps cs else none

/-- Scan of `re.search`: try the anchored matcher at each position, left to right,
returning the first success.  `prev` is the character before the current position
(for `\b`). -/
def searchAnchored {α : Type} (tryAt : Option Char → List Char → Option α) :
    Option Char → List Char → Option α
  | prev, [] => tryAt prev []
  | prev, c :: cs =>
    match tryAt prev (c :: cs) with
    | some r => some r
    | none => searchAnchored tryAt (some c) cs

/-- Character class `[:#\s-]` of `BOL_RE` / `PRO_RE`. -/
def isSepClassChar (c : Char) : Bool := c = ':' || c = '#' || c = '-' || isSpaceChar c

/-- Character class `[A-Z0-9-]` under `re.I`: letters of either case, digits, hyphen. -/
def isBolTokenChar (c : Char) : Bool := c.isAlpha || c.isDigit || c = '-'

/-- Greedy `[A-Z0-9-]{minLen,}` at the head of `l`: the maximal run of token
characters, succeeding iff its length is at least `minLen`. -/
def tokenFrom (minLen : Nat) (l : List Char) : Option String :=
  let run := l.takeWhile isBolTokenChar
  if minLen ≤ run.length then some (String.mk run) else none

/-- Backtracking over the greedy separator run `[:#\s-]*`: try consuming `j`
separator characters, from `j` down to `0`, and match the token after them. -/
def sepTryJ (minLen : Nat) (rest : List Char) : Nat → Option String
  | 0 => tokenFrom minLen rest
  | j + 1 =>
    match tokenFrom minLen (rest.drop (j + 1)) with
    | some s => some s
    | none => sepTryJ minLen rest j

/-- Matches `[:#\s-]*([A-Z0-9-]{minLen,})` with Python's greedy backtracking and
returns the captured group. -/
def sepThenToken (minLen : Nat) (rest : List Char) : Option String :=
  sepTryJ minLen rest (rest.takeWhile isSepClassChar).length

/-- Ordered alternation over keyword literals: each keyword is tried (in regex
alternation order) together with its continuation `[:#\s-]*([A-Z0-9-]{minLen,})`. -/
def tryKeywords (minLen : Nat) : List (List Char) → List Char → Option String
  | [], _ => none
  | k :: ks, cs =>
    match matchCI k cs with
    | some rest =>
      match sepThenToken minLen rest with
      | some tok => some tok
      | none => tryKeywords minLen ks cs
    | none => tryKeywords minLen ks cs

/-- Alternatives of `(?:BOL|B\.O\.L\.?|Bill of Lading)` in backtracking order
(the optional dot is tried greedily). -/
def bolKeywords : List (List Char) :=
  [['b', 'o', 'l'],
   ['b', '.', 'o', '.', 'l', '.'],
   ['b', '.', 'o', '.', 'l'],
   ['b', 'i', 'l', 'l', ' ', 'o', 'f', ' ', 'l', 'a', 'd', 'i', 'n', 'g']]

/-- Alternatives of `(?:PRO|Pro No\.?|Pro#)` in backtracking order. -/
def proKeywords : List (List Char) :=
  [['p', 'r', 'o'],
   ['p', 'r', 'o', ' ', 'n', 'o', '.'],
   ['p', 'r', 'o', ' ', 'n', 'o'],
   ['p', 'r', 'o', '#']]

/-- Anchored attempt of `BOL_RE` at one position. -/
def bolAt (prev : Option Char) (cs : List Char) : Option String :=
  if isBoundary prev cs.head? then tryKeywords 6 bolKeywords cs else none

/-- Anchored attempt of `PRO_RE` at one position. -/
def proAt (prev : Option Char) (cs : List Char) : Option String :=
  if isBoundary prev cs.head? then tryKeywords 5 proKeywords cs else none

/-- Embedding of `BOL_RE.search(text)` returning the captured group 1. -/
def bolSearch (text : String) : Option String := searchAnchored bolAt none text.toList

/-- Embedding of `PRO_RE.search(text)` returning the captured group 1. -/
def proSearch (text : String) : Option String := searchAnchored proAt none text.toList

/-- Exactly `n` digits at the head of the input (`\d{n}` as one backtracking step). -/
def digitsTakeN (n : Nat) (l : List Char) : Option (List Char × List Char) :=
  let t := l.take n
  if t.length == n && t.all Char.isDigit then some (t, l.drop n) else none

/-- Separator class (slash or hyphen) of `DATE_RE`. -/
def isDateSep (c : Char) : Bool := c = '/' || c = '-'

/-- One width of the year field `\d{2,4}` followed by the trailing `\b`. -/
def tryYearLen (n : Nat) (r : List Char) : Option (List Char) :=
  match digitsTakeN n r with
  | some (dy, r3) => if endBoundaryOk r3 then some dy else none
  | none => none

/-- Greedy `\d{2,4}` (widths 4, 3, 2 in backtracking order) with the trailing `\b`. -/
def dateYear (r : List Char) : Option (List Char) :=
  tryYearLen 4 r <|> tryYearLen 3 r <|> tryYearLen 2 r

/-- Middle and year part of `DATE_RE` alternative 1, for a fixed width `b` of the
second field. -/
def dateAlt1BTry (d1 : List Char) (s1 : Char) (b : Nat) (r : List Char) : Option String :=
  match digitsTakeN b r with
  | some (d2, r2) =>
    match r2 with
    | s2 :: r2' =>
      if isDateSep s2 then
        match dateYear r2' with
        | some dy => some (String.mk (d1 ++ [s1] ++ d2 ++ [s2] ++ dy))
        | none => none
      else none
    | [] => none
  | none => none

/-- Greedy `\d{1,2}` for the second field (widths 2, 1). -/
def dateAlt1B (d1 : List Char) (s1 : Char) (r : List Char) : Option String :=
  dateAlt1BTry d1 s1 2 r <|> dateAlt1BTry d1 s1 1 r

/-- `DATE_RE` alternative 1 (day, month, year digit fields with slash or hyphen
separators), for a fixed width `a`
of the first field. -/
def dateAlt1Try (a : Nat) (cs : List Char) : Option String :=
  match digitsTakeN a cs with
  | some (d1, r1) =>
    match r1 with
    | s1 :: r1' => if isDateSep s1 then dateAlt1B d1 s1 r1' else none
    | [] => none
  | none => none

/-- `DATE_RE` alternative 1 with greedy `\d{1,2}` (widths 2, 1) for the first field. -/
def dateAlt1 (cs : List Char) : Option String :=
  dateAlt1Try 2 cs <|> dateAlt1Try 1 cs

/-- `DATE_RE` alternative 2, `\d{4}-\d{2}-\d{2}`, with the trailing `\b`. -/
def dateAlt2 (cs : List Char) : Option String :=
  match digitsTakeN 4 cs with
  | some (dy, r) =>
    match r with
    | c1 :: r1 =>
      if c1 = '-' then
        match digitsTakeN 2 r1 with
        | some (dm, r2) =>
          match r2 with
          | c2 :: r3 =>
            if c2 = '-' then
              match digitsTakeN 2 r3 with
              | some (dd, r4) =>
                if endBoundaryOk r4 then
                  some (String.mk (dy ++ ['-'] ++ dm ++ ['-'] ++ dd))
                else none
              | none => none
            else none
          | [] => none
        | none => none
      else none
    | [] => none
  | none => none

/-- Anchored attempt of `DATE_RE` at one position (leading `\b`, then the two
alternatives in order). -/
def dateAt (prev : Option Char) (cs : List Char) : Option String :=
  if isBoundary prev cs.head? then dateAlt1 cs <|> dateAlt2 cs else none

/-- Embedding of `DATE_RE.search(text)` returning the captured group 1. -/
def dateSearch (text : String) : Option String := searchAnchored dateAt none text.toList

/-- One width of `[A-Z]{2,4}` (uppercase only: `SCAC_RE` is compiled without `re.I`)
with the trailing `\b`. -/
def tryUpperLen (n : Nat) (cs : List Char) : Option String :=
  let t := cs.take n
  if t.length == n && t.all Char.isUpper then
    if endBoundaryOk (cs.drop n) then some (String.mk t) else none
  else none

/-- Anchored attempt of `SCAC_RE` (`\b[A-Z]{2,4}\b`) at one position, greedy widths
4, 3, 2. -/
def scacAt (prev : Option Char) (cs : List Char) : Option String :=
  if isBoundary prev cs.head? then
    tryUpperLen 4 cs <|> tryUpperLen 3 cs <|> tryUpperLen 2 cs
  else none

/-- Embedding of `SCAC_RE.findall(text)[0]` (the first match, when any). -/
def scacSearch (text : String) : Option String := searchAnchored scacAt none text.toList

/-- Unit alternatives `(lb|lbs|pounds|kg|kgs)` of `WEIGHT_RE` in alternation order. -/
def weightUnits : List (List Char) :=
  [['l', 'b'], ['l', 'b', 's'], ['p', 'o', 'u', 'n', 'd', 's'],
   ['k', 'g'], ['k', 'g', 's']]

/-- Ordered alternation over the unit literals followed by the trailing `\b`;
returns the captured unit (original case) and the rest of the input. -/
def tryUnits : List (List Char) → List Char → Option (List Char × List Char)
  | [], _ => none
  | u :: us, rest =>
    match matchCI u rest with
    | some rest' =>
      if endBoundaryOk rest' then some (rest.take u.length, rest') else tryUnits us rest
    | none => tryUnits us rest

/-- Greedy `\s?` then the unit alternation: try with the single whitespace consumed
first, then without. -/
def weightUnitAfter : List Char → Option (List Char × List Char)
  | [] => none
  | c :: tl =>
    if isSpaceChar c then
      match tryUnits weightUnits tl with
      | some r => some r
      | none => tryUnits weightUnits (c :: tl)
    else tryUnits weightUnits (c :: tl)

/-- Backtracking over the greedy `\d{2,6}`: try a width of `k` digits, from the
largest feasible down to 2. -/
def weightTryK (cs : List Char) : Nat → Option (List Char × List Char × List Char)
  | 0 => none
  | 1 => none
  | k + 2 =>
    match weightUnitAfter (cs.drop (k + 2)) with
    | some (ucap, rest) => some (cs.take (k + 2), ucap, rest)
    | none => weightTryK cs (k + 1)

/-- Anchored attempt of `WEIGHT_RE` at one position.  Returns the two captured
groups, the last matched character (context for the next `\b`), and the rest of
the input after the match. -/
def weightAt (prev : Option Char) (cs : List Char) :
    Option (String × String × Char × List Char) :=
  if isBoundary prev cs.head? then
    match weightTryK cs (min (cs.takeWhile Char.isDigit).length 6) with
    | some (numCap, ucap, rest) =>
      match ucap.getLast? with
      | some lc => some (String.mk numCap, String.mk ucap, lc, rest)
      | none => none
    | none => none
  else none

/-- Scan of `WEIGHT_RE.findall`: leftmost matches, resuming at each match end.
The fuel argument dominates the scan (every step consumes at least one
character), so `weightFindAll` below never exhausts it. -/
def weightScan : Nat → Option Char → List Char → List (String × String)
  | 0, _, _ => []
  | fuel + 1, prev, cs =>
    match weightAt prev cs with
    | some (w, u, lc, rest) => (w, u) :: weightScan fuel (some lc) rest
    | none =>
      match cs with
      | [] => []
      | c :: cs' => weightScan fuel (some c) cs'

/-- Embedding of `WEIGHT_RE.findall(text)`: the list of `(digits, unit)` captures. -/
def weightFindAll (text : String) : List (String × String) :=
  weightScan (text.toList.length + 1) none text.toList

/-- Numeric value of a decimal digit string, as Python's `float(w)` on `\d+`
captures (floats are modelled as rationals). -/
def natOfDigits (s : String) : Nat :=
  s.toList.foldl (fun a c => a * 10 + (c.toNat - 48)) 0

/-- The kg→lb factor `2.20462` of `extract_regex`, as a rational. -/
def kgFactor : ℚ := (220462 : ℚ) / 100000

/-- Python `s.lower()` on ASCII text, character by character. -/
def pyLower (s : String) : String := String.mk (s.toList.map Char.toLower)

/-- Python `s.upper()` on ASCII text, character by character. -/
def pyUpper (s : String) : String := String.mk (s.toList.map Char.toUpper)

/-- Python `s.strip()` on ASCII text: leading and trailing whitespace removed. -/
def pyStrip (s : String) : String :=
  String.mk (((s.toList.dropWhile isSpaceChar).reverse.dropWhile isSpaceChar).reverse)

/-- Python `s.startswith(p)`. -/
def pyStarts (p s : String) : Bool := p.toList.isPrefixOf s.toList

/-- One converted weight of `extract_regex`: `float(w)`, multiplied by 2.20462 when
the lowercased unit starts with `kg` (`unit.lower().startswith("kg")`). -/
def weightValue (w u : String) : ℚ :=
  let v : ℚ := (natOfDigits w : ℚ)
  if pyStarts "kg" (pyLower u) = true then v * kgFactor else v

/-- The `weights` list built by the `WEIGHT_RE.findall` loop of `extract_regex`. -/
def convertedWeights (text : String) : List ℚ :=
  (weightFindAll text).map (fun p => weightValue p.1 p.2)

/-- A freight line dict of `extract_regex` / the BOL schema. -/
structure FreightLine where
  description : String
  quantity : Nat
  package_type : String
  weight : ℚ
  weight_unit : String
deriving DecidableEq

/-- The nested `carrier` object of the BOL schema. -/
structure Carrier where
  name : Option String
  scac : Option String
deriving DecidableEq

/-- The BOL-shape extraction record: every schema field is present as a field of
this structure (value `none` models JSON null). -/
structure BOLRecord where
  bol_number : Option String
  pro_number : Option String
  ship_date : Option String
  carrier : Carrier
  freight_lines : List FreightLine
  total_weight : Option ℚ
  total_packages : Option Nat
deriving DecidableEq

/-- The all-null initial record `out` of `extract_regex` (lines 60-68). -/
def nullRecord : BOLRecord :=
  { bol_number := none
    pro_number := none
    ship_date := none
    carrier := { name := none, scac := none }
    freight_lines := []
    total_weight := none
    total_packages := none }

/-- Leading-digit split of a `DATE_RE`-shaped candidate into its three digit
fields (`d1 sep d2 sep d3`, with slash or hyphen separators and nothing else). -/
def splitDate (l : List Char) : Option (List Char × List Char × List Char) :=
  let d1 := l.takeWhile Char.isDigit
  match l.drop d1.length with
  | s1 :: r1 =>
    if isDateSep s1 then
      let d2 := r1.takeWhile Char.isDigit
      match r1.drop d2.length with
      | s2 :: r2 =>
        if isDateSep s2 then
          let d3 := r2.takeWhile Char.isDigit
          if d1 ≠ [] && d2 ≠ [] && d3 ≠ [] && r2.drop d3.length = [] then
            some (d1, d2, d3)
          else none
        else none
      | [] => none
    else none
  | [] => none

/-- Numeric value of a digit-character list. -/
def natOfDigitsL (l : List Char) : Nat :=
  l.foldl (fun a c => a * 10 + (c.toNat - 48)) 0

/-- Two-digit-year windowing of `dateutil` (a two-digit year is placed within 50
years of the current year; reference year 2026). -/
def convertYearModel (n : Nat) (len : Nat) : Nat :=
  if len ≤ 2 then (if 76 ≤ n then 1900 + n else 2000 + n) else n

/-- Resolution of the three digit fields into (year, month, day), following
`dateutil` with `dayfirst=False`: a four-digit or greater-than-31 first field is
the year (year-first), otherwise the third field is the year; the remaining two
fields are taken month-first, swapping when the month candidate exceeds 12. -/
def resolveYMD (d1 d2 d3 : List Char) : Option (Nat × Nat × Nat) :=
  let n1 := natOfDigitsL d1
  let n2 := natOfDigitsL d2
  let n3 := natOfDigitsL d3
  if d1.length = 4 ∨ 31 < n1 then
    let y := convertYearModel n1 d1.length
    if n2 ≤ 12 then some (y, n2, n3)
    else if n3 ≤ 12 then some (y, n3, n2)
    else none
  else
    let y := convertYearModel n3 d3.length
    if n1 ≤ 12 then some (y, n1, n2)
    else if n2 ≤ 12 then some (y, n2, n1)
    else none

/-- Gregorian leap-year test. -/
def isLeapYear (y : Nat) : Bool := (y % 4 = 0 && y % 100 ≠ 0) || y % 400 = 0

/-- Number of days of month `m` in year `y`. -/
def daysInMonth (y m : Nat) : Nat :=
  if m = 2 then (if isLeapYear y then 29 else 28)
  else if m = 4 ∨ m = 6 ∨ m = 9 ∨ m = 11 then 30
  else 31

/-- Zero-padded two-digit rendering. -/
def pad2 (n : Nat) : String := if n < 10 then "0" ++ toString n else toString n

/-- Zero-padded four-digit rendering. -/
def pad4 (n : Nat) : String :=
  if n < 10 then "000" ++ toString n
  else if n < 100 then "00" ++ toString n
  else if n < 1000 then "0" ++ toString n
  else toString n

/-- Model of `dateutil.parser.parse(s, dayfirst=False).date().isoformat()` on the
date shapes produced by `DATE_RE` (three slash/hyphen-separated digit fields;
reference year 2026 for two-digit years); any other input, an unresolvable
field combination, or an invalid calendar date yields `none` (the parse
exception swallowed by `to_iso_date`). -/
def parseDateModel (s : String) : Option String :=
  match splitDate s.toList with
  | some (d1, d2, d3) =>
    match resolveYMD d1 d2 d3 with
    | some (y, m, d) =>
      if 1 ≤ y && y ≤ 9999 && 1 ≤ m && m ≤ 12 && 1 ≤ d && d ≤ daysInMonth y m then
        some (pad4 y ++ "-" ++ pad2 m ++ "-" ++ pad2 d)
      else none
    | none => none
  | none => none

/-- Embedding of `to_iso_date` (batch_extract.py lines 34-41): `None` or the empty
string yields `None`; otherwise the `dateutil` parse, with any parse failure
swallowed to `None`. -/
def to_iso_date (s : Option String) : Option String :=
  match s with
  | none => none
  | some t => if t = "" then none else parseDateModel t

/-- Embedding of `extract_regex` (batch_extract.py lines 58-98).  The mutation of
the initial all-null `out` dict collapses to a single record value; the
`weights` loop is `convertedWeights`; Python `max` on a nonempty list is a left
fold of `max` over the head. -/
def extract_regex (text : String) : BOLRecord :=
  let ws := convertedWeights text
  { bol_number := (bolSearch text).map pyStrip
    pro_number := (proSearch text).map pyStrip
    ship_date := (dateSearch text).bind (fun cap => to_iso_date (some cap))
    carrier := { name := none, scac := scacSearch text }
    freight_lines :=
      match ws with
      | [] => []
      | w :: rest =>
        [{ description := "Freight", quantity := 1, package_type := "PKG",
           weight := rest.foldl max w, weight_unit := "lb" }]
    total_weight :=
      match ws with
      | [] => none
      | w :: rest => some (rest.foldl max w)
    total_packages := none }

/-- State of the two shared tabular output files.  `none` models an absent file
(the `os.path.exists` check of `write_csvs`); `some rows` the file's rows. -/
structure CsvState where
  headersFile : Option (List (List String))
  linesFile : Option (List (List String))
deriving DecidableEq

/-- A fresh output location: neither tabular file exists yet. -/
def emptyCsvState : CsvState := { headersFile := none, linesFile := none }

/-- Serialization `value or ""` of an optional string cell (Python `or` maps both
`None` and the empty string to `""`). -/
def cellOpt : Option String → String
  | none => ""
  | some s => s

/-- Rendering of a rational (modelled Python float) as a cell string.  Python's
`str(float)` shortest-roundtrip rendering is modelled by the num/den rendering;
no claim depends on the text of a numeric cell. -/
def ratStr (q : ℚ) : String := toString q.num ++ "/" ++ toString q.den

/-- Serialization `value or ""` of an optional numeric cell (Python `or` maps
`None` and the falsy `0.0` to `""`). -/
def cellQ : Option ℚ → String
  | none => ""
  | some q => if q = 0 then "" else ratStr q

/-- Serialization `value or ""` of an optional integer cell. -/
def cellNat : Option Nat → String
  | none => ""
  | some n => if n = 0 then "" else toString n

/-- The header row of `bol_headers.csv` (write_csvs line 107). -/
def headerRow : List String :=
  ["id", "bol_number", "pro_number", "ship_date", "carrier_scac", "total_weight",
   "total_packages"]

/-- The data row appended to `bol_headers.csv` for one record (write_csvs
lines 108-116). -/
def headerDataRow (id_ : String) (d : BOLRecord) : List String :=
  [id_, cellOpt d.bol_number, cellOpt d.pro_number, cellOpt d.ship_date,
   cellOpt d.carrier.scac, cellQ d.total_weight, cellNat d.total_packages]

/-- The header row of `bol_lines.csv` (write_csvs line 123). -/
def linesHeaderRow : List String :=
  ["id", "description", "quantity", "package_type", "weight", "weight_unit"]

/-- The data row appended to `bol_lines.csv` for one freight line (write_csvs
lines 125-132). -/
def lineRow (id_ : String) (fl : FreightLine) : List String :=
  [id_, fl.description, toString fl.quantity, fl.package_type, ratStr fl.weight,
   fl.weight_unit]

/-- Embedding of `write_csvs` (batch_extract.py lines 101-132): both files are
opened in append mode; the header row is written only when the file did not
exist at open time; one data row is appended to the headers file and one row
per freight line to the lines file. -/
def write_csvs (id_ : String) (data : BOLRecord) (st : CsvState) : CsvState :=
  { headersFile := some (st.headersFile.getD []
      ++ (if st.headersFile.isSome then [] else [headerRow])
      ++ [headerDataRow id_ data])
    linesFile := some (st.linesFile.getD []
      ++ (if st.linesFile.isSome then [] else [linesHeaderRow])
      ++ data.freight_lines.map (lineRow id_)) }

/-- Sequential batch of `write_csvs` calls (one per processed document). -/
def writeAll (entries : List (String × BOLRecord)) (st : CsvState) : CsvState :=
  entries.foldl (fun s p => write_csvs p.1 p.2 s) st

/-- Model of a Python JSON value, for the payload of the remote extractor. -/
inductive PyVal where
  | vnull : PyVal
  | vbool : Bool → PyVal
  | vnum : ℚ → PyVal
  | vstr : String → PyVal
  | vlist : List PyVal → PyVal
  | vdict : List (String × PyVal) → PyVal

/-- The opening brace character (`chr 123`). -/
def lbrace : Char := Char.ofNat 123

/-- The closing brace character (`chr 125`). -/
def rbrace : Char := Char.ofNat 125

/-- Python `s.find(c)`: index of the first occurrence, or -1. -/
def pyFind (s : String) (c : Char) : Int :=
  match s.toList.findIdx? (fun x => x = c) with
  | some i => (i : Int)
  | none => -1

/-- Python `s.rfind(c)`: index of the last occurrence, or -1. -/
def pyRfind (s : String) (c : Char) : Int :=
  match s.toList.reverse.findIdx? (fun x => x = c) with
  | some i => ((s.toList.length - 1 - i : Nat) : Int)
  | none => -1

/-- Python slice `s[a:b]` for `0 ≤ a ≤ b` within bounds. -/
def pySlice (s : String) (a b : Int) : String :=
  String.mk ((s.toList.drop a.toNat).take (b.toNat - a.toNat))

/-- The brace-span computation of `_coerce_json` (llm_extract.py lines 38-40):
the substring from the first opening brace to the last closing brace, when the
first precedes the last. -/
def spanOf (s : String) : Option String :=
  let a := pyFind s lbrace
  let b := pyRfind s rbrace
  if a ≠ -1 ∧ b ≠ -1 ∧ a < b then some (pySlice s a (b + 1)) else none

/-- Embedding of `_coerce_json` (llm_extract.py lines 33-41), parameterized by
`loads`, the interface model of the external `json.loads` (success value or
error message): return the whole-string parse when it succeeds; otherwise parse
the outermost brace span when one exists (its failure propagates); otherwise
re-raise the original error. -/
def coerce_json (loads : String → Except String PyVal) (s : String) :
    Except String PyVal :=
  match loads s with
  | Except.ok v => Except.ok v
  | Except.error m =>
    match spanOf s with
    | some sub => loads sub
    | none => Except.error m

/-- A stub `loads` for concrete instantiation: parses only the two-character
string of an opening and a closing brace, to the empty JSON object. -/
def stubLoads (s : String) : Except String PyVal :=
  if s = String.mk [lbrace, rbrace] then Except.ok (PyVal.vdict [])
  else Except.error "Expecting value"

/-- Classification of a Python exception, as far as `process_one`'s handler can
observe it: its class and its message. -/
inductive ErrKind where
  | runtimeError : ErrKind
  | httpStatusError : Nat → ErrKind
  | jsonError : ErrKind
  | networkError : ErrKind
deriving DecidableEq

/-- A raised Python exception: class and `str(e)` message. -/
structure PyErr where
  kind : ErrKind
  msg : String
deriving DecidableEq

/-- Substring test, Python's `needle in haystack`. -/
def strContainsAux (n : List Char) : List Char → Bool
  | [] => n.isPrefixOf []
  | c :: cs => n.isPrefixOf (c :: cs) || strContainsAux n cs

/-- Substring test on strings. -/
def strContains (needle hay : String) : Bool :=
  strContainsAux needle.toList hay.toList

/-- The `RuntimeError` message raised by `extract_openai` when the API key is
missing or empty (llm_extract.py lines 48-51). -/
def missingKeyMsg : String :=
  "OPENAI_API_KEY is missing/empty. Add a repo secret named OPENAI_API_KEY and expose it in the workflow env."

/-- The `RuntimeError` message raised by `extract_openai` on a 401/403 response
(llm_extract.py lines 112-117). -/
def authFailMsg : String :=
  "OpenAI auth failed (401/403). Verify your repo secret OPENAI_API_KEY and that the workflow passes it. Also ensure there are no extra quotes/spaces in the secret."

/-- Message of the `httpx.HTTPStatusError` raised by `resp.raise_for_status()`. -/
def httpStatusMsg (status : Nat) : String := "HTTP error " ++ toString status

/-- Message of the `httpx.HTTPStatusError` raised explicitly for non-429 4xx
responses (llm_extract.py lines 99-103). -/
def openai4xxMsg (status : Nat) : String :=
  "OpenAI HTTP " ++ toString status ++ ". Likely bad/missing auth or invalid request."

/-- One modelled HTTP exchange of the retry loop: response status, whether the
`resp.json()[...]` extraction of the message content succeeds, and that
content.  The `Retry-After` header and backoff sleeps only affect timing and
are not modelled. -/
structure HttpResp where
  status : Nat
  bodyOk : Bool
  content : String
deriving DecidableEq

/-- The retry loop of `extract_openai` (llm_extract.py lines 71-127), one modelled
response per attempt: 429/5xx responses back off and retry, raising
`httpx.HTTPStatusError` at the final attempt; non-429 4xx responses raise
`httpx.HTTPStatusError`, rewritten to a `RuntimeError` for 401/403; other
non-2xx statuses raise via `raise_for_status`; on 2xx the content is parsed by
`_coerce_json`, any exception retried by the generic handler and raised at the
final attempt.  An exhausted response list models a network failure on every
remaining attempt. -/
def openaiLoop (loads : String → Except String PyVal) (maxA : Nat) :
    Nat → List HttpResp → Except PyErr PyVal
  | _, [] => Except.error { kind := ErrKind.networkError, msg := "connection failed" }
  | attempt, r :: rest =>
    if r.status = 429 ∨ (500 ≤ r.status ∧ r.status < 600) then
      if attempt = maxA then
        Except.error { kind := ErrKind.httpStatusError r.status, msg := httpStatusMsg r.status }
      else openaiLoop loads maxA (attempt + 1) rest
    else if 400 ≤ r.status ∧ r.status < 500 then
      if r.status = 401 ∨ r.status = 403 then
        Except.error { kind := ErrKind.runtimeError, msg := authFailMsg }
      else
        Except.error { kind := ErrKind.httpStatusError r.status, msg := openai4xxMsg r.status }
    else if r.status < 200 ∨ 300 ≤ r.status then
      Except.error { kind := ErrKind.httpStatusError r.status, msg := httpStatusMsg r.status }
    else if r.bodyOk then
      match coerce_json loads r.content with
      | Except.ok v => Except.ok v
      | Except.error m =>
        if attempt = maxA then Except.error { kind := ErrKind.jsonError, msg := m }
        else openaiLoop loads maxA (attempt + 1) rest
    else
      if attempt = maxA then
        Except.error { kind := ErrKind.jsonError, msg := "response body missing choices" }
      else openaiLoop loads maxA (attempt + 1) rest

/-- Embedding of `extract_openai` (llm_extract.py lines 43-127): the missing-key
check, then the retry loop from attempt 1. -/
def extract_openai (apiKey : String) (maxAttempts : Nat)
    (loads : String → Except String PyVal) (resps : List HttpResp) :
    Except PyErr PyVal :=
  if pyStrip apiKey = "" then
    Except.error { kind := ErrKind.runtimeError, msg := missingKeyMsg }
  else openaiLoop loads maxAttempts 1 resps

/-- The record handed to the output writer by `process_one`: either the parsed
remote-extractor payload or the regex fallback record. -/
inductive ProcData where
  | fromLLM : PyVal → ProcData
  | fromRegex : BOLRecord → ProcData

/-- The quota-fallback condition of `process_one` (batch_extract.py lines
144-150): the caught exception is a `RuntimeError` whose message contains the
substring `INSUFFICIENT_QUOTA`. -/
def isQuotaSignal (e : PyErr) : Bool :=
  decide (e.kind = ErrKind.runtimeError) && strContains "INSUFFICIENT_QUOTA" e.msg

/-- Embedding of `process_one` (batch_extract.py lines 135-162) after OCR, up to
the data persisted for the document: in `OPENAI` mode the remote result is
used; a caught quota-signalling `RuntimeError` substitutes the regex fallback;
any other error propagates (re-raised unchanged); otherwise the regex
extractor runs directly.  `llmResult` is the outcome of the
`extract_openai` call. -/
def process_one (modeEnv : String) (llmResult : Except PyErr PyVal)
    (text : String) : Except PyErr ProcData :=
  if pyUpper modeEnv = "OPENAI" then
    match llmResult with
    | Except.ok v => Except.ok (ProcData.fromLLM v)
    | Except.error e =>
      if isQuotaSignal e then Except.ok (ProcData.fromRegex (extract_regex text))
      else Except.error e
  else Except.ok (ProcData.fromRegex (extract_regex text))

/-- The sequential batch driver of `main` (batch_extract.py lines 179-181): each
document is processed in order; the first propagated exception aborts the
batch and surfaces at the process boundary.  A document is its OCR text
together with its remote-extractor outcome. -/
def runBatch (modeEnv : String) :
    List (String × Except PyErr PyVal) → Except PyErr (List ProcData)
  | [] => Except.ok []
  | (text, res) :: rest =>
    match process_one modeEnv res text with
    | Except.ok d =>
      match runBatch modeEnv rest with
      | Except.ok ds => Except.ok (d :: ds)
      | Except.error e => Except.error e
    | Except.error e => Except.error e

/-- A scalar field value of an extraction record (null, number, or string). -/
inductive PyScalar where
  | vnull : PyScalar
  | vnum : ℚ → PyScalar
  | vstr : String → PyScalar
deriving DecidableEq

/-- Null-or-empty test on a field value (spec: a field is back-filled or derived
when its current value is "null/empty"). -/
def isNullish : PyScalar → Bool
  | PyScalar.vnull => true
  | PyScalar.vstr s => s = ""
  | PyScalar.vnum _ => false

/-- Model of Python `float(s)` on common numeric literals (optional sign, integer
and optional fractional digit runs, surrounding whitespace); anything else is a
coercion failure.  Part of the spec-modelled derivation engine. -/
def pyFloatParse (s : String) : Option ℚ :=
  let t := (pyStrip s).toList
  let sp : ℚ × List Char :=
    match t with
    | '-' :: r => (-1, r)
    | '+' :: r => (1, r)
    | _ => (1, t)
  let ip := sp.2.takeWhile Char.isDigit
  let r2 := sp.2.drop ip.length
  match r2 with
  | [] => if ip = [] then none else some (sp.1 * (natOfDigitsL ip : ℚ))
  | '.' :: fr =>
    let fp := fr.takeWhile Char.isDigit
    if fr.drop fp.length ≠ [] then none
    else if ip = [] && fp = [] then none
    else some (sp.1 * ((natOfDigitsL ip : ℚ)
      + (natOfDigitsL fp : ℚ) / ((10 : ℚ) ^ fp.length)))
  | _ => none

/-- Numeric coercion of a field value: numbers as-is, strings through the float
parse, null fails. -/
def coerceNum : PyScalar → Option ℚ
  | PyScalar.vnum q => some q
  | PyScalar.vstr s => pyFloatParse s
  | PyScalar.vnull => none

/-- The weight fields of a Waybill-shape record that the derivation law concerns,
plus the date field the gap-filler back-fills. -/
structure WaybillFields where
  date : PyScalar
  gross_weight : PyScalar
  tare_weight : PyScalar
  net_weight : PyScalar
deriving DecidableEq

/-- Modelled from the spec: the pattern back-fill stage of the Gap-Filler (spec
section 4.3; only the date field is wired for back-fill in the released
behavior).  A null/empty `date` is filled from the raw text with the same date
pattern and normalization as the regex fallback; non-null values are never
overwritten. -/
def backfillDate (r : WaybillFields) (rawText : String) : WaybillFields :=
  if isNullish r.date then
    { r with date :=
        match (dateSearch rawText).bind (fun cap => to_iso_date (some cap)) with
        | some iso => PyScalar.vstr iso
        | none => r.date }
  else r

/-- Modelled from the spec: the derivation step of the Gap-Filler (spec section
4.3).  When `net_weight` is null/empty and both `gross_weight` and
`tare_weight` coerce to numbers, `net_weight` is set to their difference; a
numeric-coercion failure is swallowed, leaving `net_weight` unchanged (the
function is total: no document is aborted). -/
def deriveNet (r : WaybillFields) : WaybillFields :=
  if isNullish r.net_weight then
    match coerceNum r.gross_weight, coerceNum r.tare_weight with
    | some g, some t => { r with net_weight := PyScalar.vnum (g - t) }
    | _, _ => r
  else r

/-- Modelled from the spec: the Gap-Filler / Derivation Engine of spec section 4.3
(`reconcile(record, rawText)`) is not part of the two source files under src/;
this definition follows the spec's words: pattern back-fill, then the
net-weight derivation. -/
def reconcile (r : WaybillFields) (rawText : String) : WaybillFields :=
  deriveNet (backfillDate r rawText)

/-- A modelled HTTP 429 response (OpenAI signals exhausted quota with status 429,
`insufficient_quota`). -/
def resp429 : HttpResp := { status := 429, bodyOk := true, content := "" }

/-- The exception with which the embedded `extract_openai` surfaces an
all-attempts-429 run: the `httpx.HTTPStatusError` of the final
`resp.raise_for_status()`. -/
def quotaErr429 : PyErr := { kind := ErrKind.httpStatusError 429, msg := httpStatusMsg 429 }

theorem foldl_max_mem (l : List ℚ) (a : ℚ) : l.foldl max a = a ∨ l.foldl max a ∈ l := by
  induction l generalizing a with
  | nil => left; rfl
  | cons b t ih =>
    rw [List.foldl_cons]
    rcases ih (max a b) with h | h
    · rcases max_choice a b with hm | hm
      · left; rw [h, hm]
      · right; rw [h, hm]; exact List.mem_cons_self _ _
    · right; exact List.mem_cons_of_mem _ h

theorem le_foldl_max (l : List ℚ) (a : ℚ) : a ≤ l.foldl max a := by
  induction l generalizing a with
  | nil => exact le_refl a
  | cons b t ih =>
    rw [List.foldl_cons]
    exact le_trans (le_max_left a b) (ih (max a b))

theorem mem_le_foldl_max (l : List ℚ) (a x : ℚ) (hx : x ∈ l) : x ≤ l.foldl max a := by
  induction l generalizing a with
  | nil => cases hx
  | cons b t ih =>
    rw [List.foldl_cons]
    rcases List.mem_cons.mp hx with rfl | h
    · exact le_trans (le_max_right a x) (le_foldl_max t (max a x))
    · exact ih (max a b) h

theorem writeAll_headersFile (entries : List (String × BOLRecord)) :
    ∀ (rowsH rowsL : List (List String)),
      (writeAll entries { headersFile := some rowsH, linesFile := some rowsL }).headersFile
        = some (rowsH ++ entries.map (fun p => headerDataRow p.1 p.2)) := by
  induction entries with
  | nil => intro rowsH rowsL; simp [writeAll]
  | cons e rest ih =>
    intro rowsH rowsL
    have hw : write_csvs e.1 e.2 { headersFile := some rowsH, linesFile := some rowsL }
        = { headersFile := some (rowsH ++ [headerDataRow e.1 e.2]),
            linesFile := some (rowsL ++ e.2.freight_lines.map (lineRow e.1)) } := by
      simp [write_csvs]
    show (writeAll rest
        (write_csvs e.1 e.2 { headersFile := some rowsH, linesFile := some rowsL })).headersFile = _
    rw [hw, ih]
    simp

theorem openaiLoop_runtime_msg (loads : String → Except String PyVal) (maxA : Nat) :
    ∀ (resps : List HttpResp) (attempt : Nat) (e : PyErr),
      openaiLoop loads maxA attempt resps = Except.error e →
      e.kind = ErrKind.runtimeError → e.msg = authFailMsg := by
  intro resps
  induction resps with
  | nil =>
    intro attempt e h hk
    simp only [openaiLoop, Except.error.injEq] at h
    subst h
    simp at hk
  | cons r rest ih =>
    intro attempt e h hk
    simp only [openaiLoop] at h
    split at h
    · split at h
      · simp only [Except.error.injEq] at h
        subst h
        simp at hk
      · exact ih _ e h hk
    · split at h
      · split at h
        · simp only [Except.error.injEq] at h
          subst h
          rfl
        · simp only [Except.error.injEq] at h
          subst h
          simp at hk
      · split at h
        · simp only [Except.error.injEq] at h
          subst h
          simp at hk
        · split at h
          · split at h
            · exact absurd h (by simp)
            · split at h
              · simp only [Except.error.injEq] at h
                subst h
                simp at hk
              · exact ih _ e h hk
          · split at h
            · simp only [Except.error.injEq] at h
              subst h
              simp at hk
            · exact ih _ e h hk

/-- C1: `extract_regex` is total (a Lean function on all of `String`) and its
result always carries every BOL-schema field (a `BOLRecord` structure value);
`carrier.name` and `total_packages` are never populated, every pattern-backed
field whose pattern finds no match is null, an empty weight scan leaves
`total_weight` null and `freight_lines` empty, and the empty string yields the
all-null record. -/
theorem extract_regex_schema_complete (text : String) :
    (extract_regex text).carrier.name = none
  ∧ (extract_regex text).total_packages = none
  ∧ (bolSearch text = none → (extract_regex text).bol_number = none)
  ∧ (proSearch text = none → (extract_regex text).pro_number = none)
  ∧ (dateSearch text = none → (extract_regex text).ship_date = none)
  ∧ (scacSearch text = none → (extract_regex text).carrier.scac = none)
  ∧ (convertedWeights text = [] →
      (extract_regex text).total_weight = none ∧ (extract_regex text).freight_lines = [])
  ∧ extract_regex "" = nullRecord := by
  refine ⟨?_, ?_, ?_, ?_, ?_, ?_, ?_, ?_⟩
  · simp [extract_regex]
  · simp [extract_regex]
  · intro h; simp [extract_regex, h]
  · intro h; simp [extract_regex, h]
  · intro h; simp [extract_regex, h]
  · intro h; simp [extract_regex, h]
  · intro h; constructor <;> simp [extract_regex, h]
  · decide

theorem extract_regex_schema_complete_witness :
    (extract_regex "zz").bol_number = none
  ∧ (extract_regex "zz").pro_number = none
  ∧ (extract_regex "zz").ship_date = none
  ∧ (extract_regex "zz").carrier.scac = none
  ∧ (extract_regex "zz").total_weight = none
  ∧ (extract_regex "zz").freight_lines = [] := by
  have h := extract_regex_schema_complete "zz"
  exact ⟨h.2.2.1 (by decide), h.2.2.2.1 (by decide), h.2.2.2.2.1 (by decide),
    h.2.2.2.2.2.1 (by decide), (h.2.2.2.2.2.2.1 (by decide)).1,
    (h.2.2.2.2.2.2.1 (by decide)).2⟩

/-- C4: writing N records through `write_csvs` from a fresh output location yields
the headers file as the single header row followed by exactly the N data rows
in write order (the header is written exactly once, whatever N is); and every
single call only appends: the rows present before the call are preserved as a
prefix of both files. -/
theorem write_csvs_header_once_append_only :
    (∀ (e : String × BOLRecord) (rest : List (String × BOLRecord)),
      (writeAll (e :: rest) emptyCsvState).headersFile
        = some (headerRow :: (e :: rest).map (fun p => headerDataRow p.1 p.2)))
  ∧ (∀ (id_ : String) (d : BOLRecord) (st : CsvState),
      (∃ tail, (write_csvs id_ d st).headersFile = some (st.headersFile.getD [] ++ tail))
    ∧ (∃ tail, (write_csvs id_ d st).linesFile = some (st.linesFile.getD [] ++ tail))) := by
  constructor
  · intro e rest
    have h0 : write_csvs e.1 e.2 emptyCsvState
        = { headersFile := some ([headerRow, headerDataRow e.1 e.2]),
            linesFile := some (linesHeaderRow :: e.2.freight_lines.map (lineRow e.1)) } := by
      simp [write_csvs, emptyCsvState]
    show (writeAll rest (write_csvs e.1 e.2 emptyCsvState)).headersFile = _
    rw [h0, writeAll_headersFile]
    simp
  · intro id_ d st
    refine ⟨⟨(if st.headersFile.isSome then [] else [headerRow]) ++ [headerDataRow id_ d], ?_⟩,
            ⟨(if st.linesFile.isSome then [] else [linesHeaderRow])
              ++ d.freight_lines.map (lineRow id_), ?_⟩⟩
    · simp [write_csvs]
    · simp [write_csvs]

/-- C10: every data row appended to the headers table has exactly 7 cells,
matching its 7-column header row; every row appended to the lines table has
exactly 6 cells, matching its header; and a record with no freight lines still
creates the lines file with its header row and zero data rows. -/
theorem write_csvs_fixed_row_widths (id_ : String) (d : BOLRecord) (st : CsvState) :
    (write_csvs id_ d st).headersFile
      = some (st.headersFile.getD []
          ++ (if st.headersFile.isSome then [] else [headerRow]) ++ [headerDataRow id_ d])
  ∧ headerRow.length = 7
  ∧ (headerDataRow id_ d).length = 7
  ∧ (write_csvs id_ d st).linesFile
      = some (st.linesFile.getD []
          ++ (if st.linesFile.isSome then [] else [linesHeaderRow])
          ++ d.freight_lines.map (lineRow id_))
  ∧ linesHeaderRow.length = 6
  ∧ (∀ fl : FreightLine, (lineRow id_ fl).length = 6)
  ∧ (st.linesFile = none → d.freight_lines = [] →
      (write_csvs id_ d st).linesFile = some [linesHeaderRow]) := by
  refine ⟨rfl, rfl, rfl, rfl, rfl, fun fl => rfl, ?_⟩
  intro h1 h2
  simp [write_csvs, h1, h2]

theorem write_csvs_fixed_row_widths_witness :
    (write_csvs "doc-0001" nullRecord emptyCsvState).linesFile = some [linesHeaderRow] :=
  (write_csvs_fixed_row_widths "doc-0001" nullRecord emptyCsvState).2.2.2.2.2.2 rfl rfl

/-- C5: when at least one weight pattern matches, `extract_regex` sets
`total_weight` to the maximum of the converted values and appends exactly one
synthetic freight line (description "Freight", quantity 1, package type "PKG",
weight equal to `total_weight`, unit "lb"); with no weight match,
`total_weight` is null and `freight_lines` is empty. -/
theorem extract_regex_total_weight_is_max (text : String) :
    (convertedWeights text = [] →
      (extract_regex text).total_weight = none ∧ (extract_regex text).freight_lines = [])
  ∧ (convertedWeights text ≠ [] → ∃ m : ℚ,
      (extract_regex text).total_weight = some m
    ∧ m ∈ convertedWeights text
    ∧ (∀ x ∈ convertedWeights text, x ≤ m)
    ∧ (extract_regex text).freight_lines
        = [{ description := "Freight", quantity := 1, package_type := "PKG",
             weight := m, weight_unit := "lb" }]) := by
  constructor
  · intro h
    exact ⟨by simp [extract_regex, h], by simp [extract_regex, h]⟩
  · intro h
    rcases hw : convertedWeights text with _ | ⟨w, rest⟩
    · exact absurd hw h
    · refine ⟨rest.foldl max w, ?_, ?_, ?_, ?_⟩
      · simp [extract_regex, hw]
      · rcases foldl_max_mem rest w with h1 | h1
        · rw [h1]; exact List.mem_cons_self _ _
        · exact List.mem_cons_of_mem _ h1
      · intro x hx
        rcases List.mem_cons.mp hx with rfl | h2
        · exact le_foldl_max rest x
        · exact mem_le_foldl_max rest w x h2
      · simp [extract_regex, hw]

theorem extract_regex_total_weight_is_max_witness :
    ∃ m : ℚ,
      (extract_regex "10 lbs 20 kg").total_weight = some m
    ∧ m ∈ convertedWeights "10 lbs 20 kg"
    ∧ (∀ x ∈ convertedWeights "10 lbs 20 kg", x ≤ m)
    ∧ (extract_regex "10 lbs 20 kg").freight_lines
        = [{ description := "Freight", quantity := 1, package_type := "PKG",
             weight := m, weight_unit := "lb" }] :=
  (extract_regex_total_weight_is_max "10 lbs 20 kg").2 (by decide)

/-- C6: every kilogram-denominated weight is multiplied by exactly 2.20462 (as a
rational; the model of the Python float factor) before being stored, and
pound-denominated weights are stored unchanged: `1000 kg` yields exactly
2204.62 and `500 lbs` yields 500. -/
theorem extract_regex_kg_conversion :
    (extract_regex "1000 kg").total_weight = some ((220462 : ℚ) / 100)
  ∧ (extract_regex "500 lbs").total_weight = some (500 : ℚ)
  ∧ (∀ w u : String, weightValue w u =
      if pyStarts "kg" (pyLower u) = true then (natOfDigits w : ℚ) * kgFactor
      else (natOfDigits w : ℚ))
  ∧ (1000 : ℚ) * kgFactor = (220462 : ℚ) / 100 := by
  have h1 : natOfDigits "1000" = 1000 := by decide
  have h2 : natOfDigits "500" = 500 := by decide
  have e1 : (extract_regex "1000 kg").total_weight
      = some ((natOfDigits "1000" : ℚ) * kgFactor) := rfl
  have e2 : (extract_regex "500 lbs").total_weight
      = some ((natOfDigits "500" : ℚ)) := rfl
  refine ⟨?_, ?_, fun w u => rfl, ?_⟩
  · rw [e1, h1]
    simp only [Option.some.injEq]
    norm_num [kgFactor]
  · rw [e2, h2]
    simp only [Option.some.injEq]
    norm_num
  · norm_num [kgFactor]

/-- C7: `ship_date` is the first `DATE_RE` match normalized by `to_iso_date`
(the `dateutil` model with `dayfirst=False`, i.e. US-date parsing): text
containing `03/14/2024` yields "2024-03-14", text containing `2024-03-14`
yields the same value, and a matched but unparsable candidate yields null
(no error is raised: `to_iso_date` is total). -/
theorem extract_regex_ship_date_normalized (text : String) :
    (∀ cap, dateSearch text = some cap →
      (extract_regex text).ship_date = to_iso_date (some cap))
  ∧ (extract_regex "Date: 03/14/2024").ship_date = some "2024-03-14"
  ∧ (extract_regex "Date: 2024-03-14").ship_date = some "2024-03-14"
  ∧ dateSearch "Date: 99/99/9999" = some "99/99/9999"
  ∧ (extract_regex "Date: 99/99/9999").ship_date = none := by
  refine ⟨?_, by decide, by decide, by decide, by decide⟩
  intro cap h
  simp [extract_regex, h]

theorem extract_regex_ship_date_normalized_witness :
    (extract_regex "shipped on 03/14/2024").ship_date = to_iso_date (some "03/14/2024") :=
  (extract_regex_ship_date_normalized "shipped on 03/14/2024").1 "03/14/2024" (by decide)

/-- C2 (spec-modelled): when `gross_weight` and `tare_weight` are non-null
numerics and `net_weight` is null, reconciliation sets `net_weight` to their
difference; a non-null `net_weight` is never altered; and a numeric-coercion
failure leaves `net_weight` unchanged (null) instead of aborting — the
function is total. -/
theorem reconcile_net_weight_law (r : WaybillFields) (text : String) :
    (∀ g t : ℚ, isNullish r.net_weight = true →
      coerceNum r.gross_weight = some g → coerceNum r.tare_weight = some t →
      (reconcile r text).net_weight = PyScalar.vnum (g - t))
  ∧ (isNullish r.net_weight = false → (reconcile r text).net_weight = r.net_weight)
  ∧ (isNullish r.net_weight = true →
      (coerceNum r.gross_weight = none ∨ coerceNum r.tare_weight = none) →
      (reconcile r text).net_weight = r.net_weight) := by
  have hb1 : (backfillDate r text).net_weight = r.net_weight := by
    unfold backfillDate; split <;> rfl
  have hb2 : (backfillDate r text).gross_weight = r.gross_weight := by
    unfold backfillDate; split <;> rfl
  have hb3 : (backfillDate r text).tare_weight = r.tare_weight := by
    unfold backfillDate; split <;> rfl
  refine ⟨?_, ?_, ?_⟩
  · intro g t hn hg ht
    simp [reconcile, deriveNet, hb1, hb2, hb3, hn, hg, ht]
  · intro hn
    simp [reconcile, deriveNet, hb1, hn]
  · intro hn hor
    rcases hcg : coerceNum r.gross_weight with _ | g
    · simp [reconcile, deriveNet, hb1, hb2, hn, hcg]
    · rcases hor with hg | ht
      · rw [hcg] at hg; exact Option.noConfusion hg
      · simp [reconcile, deriveNet, hb1, hb2, hb3, hn, hcg, ht]

theorem reconcile_net_weight_law_witness :
    (reconcile { date := PyScalar.vnull, gross_weight := PyScalar.vnum 100,
                 tare_weight := PyScalar.vnum 20, net_weight := PyScalar.vnull } "").net_weight
      = PyScalar.vnum ((100 : ℚ) - 20) :=
  (reconcile_net_weight_law _ "").1 100 20 rfl rfl rfl

/-- C8: a remote-extraction failure that is not the distinguished quota signal (a
`RuntimeError` whose message contains `INSUFFICIENT_QUOTA`) is not recovered:
`process_one` re-raises the very same exception object — original message
intact, no substitution — and the batch driver aborts with it at the process
boundary. -/
theorem process_one_non_quota_aborts (e : PyErr) (text : String)
    (docs : List (String × Except PyErr PyVal)) (h : isQuotaSignal e = false) :
    process_one "OPENAI" (Except.error e) text = Except.error e
  ∧ runBatch "OPENAI" ((text, Except.error e) :: docs) = Except.error e := by
  have hU : pyUpper "OPENAI" = "OPENAI" := by decide
  have hp : process_one "OPENAI" (Except.error e) text = Except.error e := by
    simp [process_one, hU, h]
  exact ⟨hp, by simp [runBatch, hp]⟩

theorem process_one_non_quota_aborts_witness :
    process_one "OPENAI"
        (Except.error { kind := ErrKind.httpStatusError 500, msg := "Server error" }) "doc"
      = Except.error { kind := ErrKind.httpStatusError 500, msg := "Server error" }
  ∧ runBatch "OPENAI"
        [("doc", Except.error { kind := ErrKind.httpStatusError 500, msg := "Server error" })]
      = Except.error { kind := ErrKind.httpStatusError 500, msg := "Server error" } :=
  process_one_non_quota_aborts
    { kind := ErrKind.httpStatusError 500, msg := "Server error" } "doc" [] (by decide)

/-- C9: the response parser returns the whole-string parse when the string is
valid JSON; otherwise, when the outermost brace span (first opening brace to
last closing brace, in that order) parses, it returns that parse; and when no
valid JSON span exists — no span at all, or an unparsable span — it surfaces
an error rather than an all-null or empty result. -/
theorem coerce_json_outermost_span (loads : String → Except String PyVal) (s : String) :
    (∀ v, loads s = Except.ok v → coerce_json loads s = Except.ok v)
  ∧ (∀ m sub v, loads s = Except.error m → spanOf s = some sub →
      loads sub = Except.ok v → coerce_json loads s = Except.ok v)
  ∧ (∀ m, loads s = Except.error m → spanOf s = none →
      coerce_json loads s = Except.error m)
  ∧ (∀ m sub m2, loads s = Except.error m → spanOf s = some sub →
      loads sub = Except.error m2 → coerce_json loads s = Except.error m2) := by
  refine ⟨?_, ?_, ?_, ?_⟩ <;> intros <;> simp_all [coerce_json]

theorem coerce_json_outermost_span_witness :
    coerce_json stubLoads "note \x7b\x7d done" = Except.ok (PyVal.vdict []) :=
  (coerce_json_outermost_span stubLoads "note \x7b\x7d done").2.1 "Expecting value"
    (String.mk [lbrace, rbrace]) (PyVal.vdict []) rfl (by decide) rfl

/-- C3 (code bug): quota exhaustion does not reach the fallback.  When every
remote attempt answers HTTP 429 (OpenAI's `insufficient_quota` status), the
embedded `extract_openai` raises an `httpx.HTTPStatusError` — which is not the
`RuntimeError`-with-`INSUFFICIENT_QUOTA` signal `process_one` looks for — so
the batch aborts instead of persisting the regex fallback record; moreover no
error `extract_openai` can raise ever satisfies the fallback condition, which
is therefore dead code. -/
theorem quota_exhaustion_aborts_batch :
    extract_openai "sk-test" 7 stubLoads (List.replicate 7 resp429) = Except.error quotaErr429
  ∧ isQuotaSignal quotaErr429 = false
  ∧ runBatch "OPENAI"
      [("BOL# ABC123 100 lbs", Except.error quotaErr429), ("PRO 55555", Except.ok PyVal.vnull)]
      = Except.error quotaErr429
  ∧ (Except.error quotaErr429
      ≠ (Except.ok [ProcData.fromRegex (extract_regex "BOL# ABC123 100 lbs"),
                    ProcData.fromRegex (extract_regex "PRO 55555")] : Except PyErr (List ProcData)))
  ∧ (∀ (apiKey : String) (maxA : Nat) (loads : String → Except String PyVal)
       (resps : List HttpResp) (e : PyErr),
      extract_openai apiKey maxA loads resps = Except.error e → isQuotaSignal e = false) := by
  refine ⟨rfl, by decide, rfl, fun h => Except.noConfusion h, ?_⟩
  intro apiKey maxA loads resps e h
  unfold extract_openai at h
  split at h
  · simp only [Except.error.injEq] at h
    subst h
    decide
  · by_cases hk : e.kind = ErrKind.runtimeError
    · have hm := openaiLoop_runtime_msg loads maxA resps 1 e h hk
      unfold isQuotaSignal
      rw [hk, hm]
      decide
    · unfold isQuotaSignal
      simp [hk]

theorem quota_exhaustion_aborts_batch_witness :
    isQuotaSignal { kind := ErrKind.runtimeError, msg := missingKeyMsg } = false :=
  quota_exhaustion_aborts_batch.2.2.2.2 "" 1 stubLoads []
    { kind := ErrKind.runtimeError, msg := missingKeyMsg } rfl
